import Mathlib

set_option maxRecDepth 6000

/-!
Verification of the py_GameDeals batch pipeline (src/gamedeals.py).

Shallow embedding: each Python function becomes a Lean definition over
explicit data.  Python strings are Lean `String`s; the Python substring
test `sub in s` is `strContains`; Python sets of post ids are duplicate-free
`List String`s built by insertion order; the state file is an
`Option (List String)` (`none` = file absent); `main`'s observable effects
(file writes, emails handed to the SMTP client, escaped exceptions, printed
lines) are collected in a `World` record, with the fallible external calls
(HTTP fetch, SMTP send, file write) supplied as an `Env`.
-/

namespace GameDeals

/-- Character-list prefix test, executable by plain recursion. -/
def prefixB : List Char → List Char → Bool
  | [], _ => true
  | _ :: _, [] => false
  | a :: as, b :: bs => a == b && prefixB as bs

/-- Character-list substring test, executable by plain recursion. -/
def infixB (pat : List Char) : List Char → Bool
  | [] => pat.isEmpty
  | c :: cs => prefixB pat (c :: cs) || infixB pat cs

/-- Python `sub in s` on strings: substring containment. -/
def strContains (s sub : String) : Bool := infixB sub.data s.data

/-- Python `pre` being a prefix of `s` (used only to state properties). -/
def strIsPrefixOf (pre s : String) : Bool := prefixB pre.data s.data

/-- Python `s.lower()` (ASCII case folding suffices for the rule terms). -/
def lower (s : String) : String := ⟨s.data.map Char.toLower⟩

/-- One normalized feed item, as built by `fetch_posts` (gamedeals.py:199-205). -/
structure Post where
  id : String
  title : String
  url : String
  domain : String
  permalink : String
deriving DecidableEq, Repr

/-- Raw fields of one `child["data"]` entry of the decoded feed JSON. -/
structure RawChild where
  id : String
  title : String
  url : String
  domain : String
  permalink : String
deriving DecidableEq, Repr

/-- Monitored subreddit (gamedeals.py:50). -/
def SUBREDDIT : String := "GameDeals"

/-- Platform allow-list (gamedeals.py:155). -/
def allowTerms : List String := ["steam", "gog", "epic"]

/-- Promotional exclusion list (gamedeals.py:158). -/
def exclusionTerms : List String := ["limited time", "free weekend", "free to play", "trial", "buy"]

/-- Qualifying terms list (gamedeals.py:161). -/
def qualifyingTerms : List String := ["free", "100"]

/-- Python `any(sub in title for sub in subs)`. -/
def hasTerm (title : String) (subs : List String) : Bool :=
  subs.any fun sub => strContains title sub

/-- Embedding of `filter_post` (gamedeals.py:144-164): sequential checks,
each failing check returning `False` at once. -/
def filter_post (post : Post) : Bool :=
  if lower post.domain == "self.gamedeals" then
    false
  else
    let title := lower post.title
    if !(hasTerm title allowTerms) then
      false
    else if hasTerm title exclusionTerms then
      false
    else if !(hasTerm title qualifyingTerms) then
      false
    else
      true

/-- Embedding of `load_sent_posts` (gamedeals.py:175-181): the state file is
`none` when absent (return the empty set) and `some ids` when it holds
`{"sent_ids": ids}`; Python `set(ids)` collapses duplicates. -/
def load_sent_posts (file : Option (List String)) : List String :=
  match file with
  | some ids => ids.dedup
  | none => []

/-- Embedding of `save_sent_posts` (gamedeals.py:184-187): overwrite the
backing file wholesale with the serialized id list. -/
def save_sent_posts (sent_ids : List String) : Option (List String) :=
  some sent_ids

/-- Embedding of the parsing loop of `fetch_posts` (gamedeals.py:196-206),
given the decoded `data.children[].data` records (the HTTP GET itself is an
external collaborator): each raw permalink is prefixed with the absolute
feed host. -/
def fetch_posts (children : List RawChild) : List Post :=
  children.map fun p =>
    { id := p.id, title := p.title, url := p.url, domain := p.domain,
      permalink := "https://www.reddit.com" ++ p.permalink }

/-- HTML escaping of one character as the template engine applies it to
every interpolated `\x7b\x7btag\x7d\x7d` variable. -/
def escapeChar (c : Char) : String :=
  if c = '&' then "&amp;"
  else if c = '<' then "&lt;"
  else if c = '>' then "&gt;"
  else if c = '"' then "&quot;"
  else String.singleton c

/-- HTML escaping of a character list. -/
def escapeList : List Char → String
  | [] => ""
  | c :: cs => escapeChar c ++ escapeList cs

/-- HTML escaping of a string. -/
def escapeHtml (s : String) : String := escapeList s.data

/-- Constant head of `TEMPLATE` (gamedeals.py:55-108), everything before the
repeated posts section; CSS comments elided, braces and apostrophes written
as escapes. -/
def htmlHeader : String :=
  "\n<!DOCTYPE html>\n<html lang=\"en\">\n<head>\n    <meta charset=\"UTF-8\">\n" ++
  "    <meta name=\"viewport\" content=\"width=device-width, initial-scale=1.0\">\n" ++
  "    <style>\n        body \x7b\n            font-family: Arial, sans-serif;\n" ++
  "            background-color: #2E2E2E;\n" ++
  "            background-image: url(\x27https://img.freepik.com/premium-vector/carbon-fiber-background_79145-383.jpg\x27);\n" ++
  "            background-size: cover;\n            background-attachment: fixed;\n" ++
  "            margin: 0;\n            padding: 20px;\n        \x7d\n" ++
  "        .card-container \x7b\n            display: flex;\n            flex-direction: column;\n" ++
  "            align-items: flex-start;\n            gap: 20px;\n        \x7d\n" ++
  "        .card \x7b\n            background-color: #f8f8f8;\n            border: 1px solid #ccc;\n" ++
  "            border-radius: 10px;\n            box-shadow: 0 2px 4px rgba(0,0,0,0.1);\n" ++
  "            padding: 20px;\n            width: 100%;\n            max-width: 500px;\n" ++
  "            box-sizing: border-box;\n        \x7d\n" ++
  "        .card-title \x7b\n            font-size: 20px;\n            margin-bottom: 10px;\n        \x7d\n" ++
  "        .card-links \x7b\n            display: flex;\n            gap: 10px;\n        \x7d\n" ++
  "        .card-link \x7b\n            display: inline-block;\n            padding: 5px 10px;\n" ++
  "            border-radius: 20px;\n            background-color: #2E2E2E;\n            color: #ffffff;\n" ++
  "            text-decoration: none;\n            font-size: 14px;\n        \x7d\n" ++
  "    </style>\n    <title>Game List</title>\n</head>\n<body>\n" ++
  "    <div class=\"card-container\" id=\"card-container\">\n"

/-- Constant tail of `TEMPLATE` (gamedeals.py:118-139), everything after the
repeated posts section; JS comments elided, braces and apostrophes written
as escapes. -/
def htmlFooter : String :=
  "    </div>\n\n    <script>\n        window.onload = function() \x7b\n" ++
  "            var cards = document.querySelectorAll(\x27.card\x27);\n" ++
  "            var maxWidth = 0;\n\n            cards.forEach(function(card) \x7b\n" ++
  "                maxWidth = Math.max(maxWidth, card.offsetWidth);\n            \x7d);\n\n" ++
  "            cards.forEach(function(card) \x7b\n" ++
  "                card.style.width = maxWidth + \x27px\x27;\n            \x7d);\n" ++
  "        \x7d\n    </script>\n</body>\n</html>\n"

/-- The href of the Reddit link of one card: the template literally prepends
`http://www.reddit.com` before the interpolated permalink
(gamedeals.py:113). -/
def redditHref (p : Post) : String :=
  "http://www.reddit.com" ++ escapeHtml p.permalink

/-- One rendering of the repeated `\x7b\x7b#posts\x7d\x7d` section of
`TEMPLATE` (gamedeals.py:109-117) for one post, interpolated variables
HTML-escaped as the template engine does. -/
def renderCard (p : Post) : String :=
  "        <div class=\"card\">\n            <div class=\"card-title\">" ++
  escapeHtml p.title ++
  "</div>\n            <div class=\"card-links\">\n                <a href=\"" ++
  redditHref p ++
  "\" class=\"card-link\">Reddit link</a>\n                <a href=\"" ++
  escapeHtml p.url ++
  "\" class=\"card-link\">Direct link</a>\n            </div>\n        </div>\n"

/-- The repeated section rendered once per post, in list order. -/
def renderCards : List Post → String
  | [] => ""
  | p :: ps => renderCard p ++ renderCards ps

/-- Embedding of `render_posts_html` (gamedeals.py:169-172) applied to the
fixed `TEMPLATE`: the template engine repeats the posts section once per
item between the constant head and tail. -/
def render_posts_html (posts : List Post) : String :=
  htmlHeader ++ renderCards posts ++ htmlFooter

/-- Outcomes of the external calls `main` performs: the feed fetch (an
`Except.error` is a raised exception carrying its message), the SMTP send,
and the state-file write. -/
structure Env where
  fetchResult : Except String (List Post)
  sendOk : Bool
  saveOk : Bool

/-- Observable effects of one run of `main`: final state-file contents,
documents handed to the SMTP client, whether `save_sent_posts` was invoked,
whether an exception escaped `main`, and the lines printed. -/
structure World where
  file : Option (List String)
  sentEmails : List String
  saveCalled : Bool
  crashed : Bool
  log : List String
deriving DecidableEq, Repr

/-- Embedding of the fetch loop of `main` (gamedeals.py:229-232): walk the
fetched posts in order; skip ids already in `sent_ids`; otherwise apply
`filter_post`; collect matches in order, adding each matched id to the
in-memory id set (modelled as an insertion-ordered duplicate-free list). -/
def processPosts : List Post → List String → List Post × List String
  | [], sent_ids => ([], sent_ids)
  | post :: posts, sent_ids =>
    if !(sent_ids.contains post.id) && filter_post post then
      let r := processPosts posts (sent_ids ++ [post.id])
      (post :: r.1, r.2)
    else
      processPosts posts sent_ids

/-- Embedding of `main` (gamedeals.py:223-242).  The try/except covers only
the fetch-and-filter loop, so a raised fetch is caught and logged; the
send/save calls in the delivery branch are unprotected, so a raised send or
save escapes `main` (`crashed := true`) and leaves the state file at its
pre-run contents.  `save_sent_posts` runs only after a successful send. -/
def pyMain (env : Env) (file0 : Option (List String)) : World :=
  let sent_ids0 := load_sent_posts file0
  match env.fetchResult with
  | Except.error e =>
    { file := file0, sentEmails := [], saveCalled := false, crashed := false,
      log := ["Error fetching " ++ SUBREDDIT ++ ": " ++ e, "No new matching posts."] }
  | Except.ok posts =>
    let r := processPosts posts sent_ids0
    if !(r.1.isEmpty) then
      let html := render_posts_html r.1
      if env.sendOk then
        if env.saveOk then
          { file := save_sent_posts r.2, sentEmails := [html], saveCalled := true,
            crashed := false,
            log := ["Sent email with " ++ toString r.1.length ++ " new posts."] }
        else
          { file := file0, sentEmails := [html], saveCalled := true, crashed := true,
            log := [] }
      else
        { file := file0, sentEmails := [], saveCalled := false, crashed := true,
          log := [] }
    else
      { file := file0, sentEmails := [], saveCalled := false, crashed := false,
        log := ["No new matching posts."] }

/-- Scenario item A: already recorded in the seen set before the run. -/
def postA : Post :=
  { id := "A", title := "[GOG] Old Classic (Free)", url := "https://www.gog.com/old",
    domain := "gog.com", permalink := "https://www.reddit.com/r/GameDeals/comments/a1/old_classic" }

/-- Scenario item B: new and matching every filter rule. -/
def postB : Post :=
  { id := "B", title := "[Steam] Hidden Jewel (Free / 100 off)",
    url := "https://store.steampowered.com/app/42", domain := "store.steampowered.com",
    permalink := "https://www.reddit.com/r/GameDeals/comments/b2/hidden_jewel" }

/-- Scenario item C: new but failing the qualifying-terms check. -/
def postC : Post :=
  { id := "C", title := "[Epic] Mega Sale (75 percent off)",
    url := "https://store.epicgames.com/sale", domain := "epicgames.com",
    permalink := "https://www.reddit.com/r/GameDeals/comments/c3/mega_sale" }

/-- Scenario environment: the feed returns A, B, C and both the SMTP send
and the state-file write succeed. -/
def envABC : Env := { fetchResult := Except.ok [postA, postB, postC], sendOk := true, saveOk := true }

theorem prefixB_iff (l₁ l₂ : List Char) : prefixB l₁ l₂ = true ↔ l₁ <+: l₂ := by
  induction l₁ generalizing l₂ with
  | nil => simp [prefixB]
  | cons a as ih =>
    cases l₂ with
    | nil => simp [prefixB]
    | cons b bs =>
      show (a == b && prefixB as bs) = true ↔ a :: as <+: b :: bs
      rw [List.cons_prefix_cons, Bool.and_eq_true, beq_iff_eq, ih bs]

theorem infixB_iff (pat l : List Char) : infixB pat l = true ↔ pat <:+: l := by
  induction l with
  | nil =>
    cases pat <;> simp [infixB]
  | cons c cs ih =>
    simp [infixB, prefixB_iff, ih, List.infix_cons_iff]

theorem strContains_iff (s sub : String) : strContains s sub = true ↔ sub.data <:+: s.data :=
  infixB_iff sub.data s.data

theorem strIsPrefixOf_iff (pre s : String) :
    strIsPrefixOf pre s = true ↔ pre.data <+: s.data :=
  prefixB_iff pre.data s.data

theorem contains_eq_true_iff (l : List String) (a : String) :
    l.contains a = true ↔ a ∈ l := by
  simp [List.contains, List.elem_iff]

theorem processPosts_sent_eq (posts : List Post) (sent : List String) :
    (processPosts posts sent).2 = sent ++ (processPosts posts sent).1.map Post.id := by
  induction posts generalizing sent with
  | nil => simp [processPosts]
  | cons p ps ih =>
    by_cases h : (!(sent.contains p.id) && filter_post p) = true
    · simp only [processPosts, if_pos h]
      rw [ih (sent ++ [p.id])]
      simp
    · simp only [processPosts, if_neg h]
      exact ih sent

theorem processPosts_matched (posts : List Post) (sent : List String) :
    ∀ q ∈ (processPosts posts sent).1, filter_post q = true ∧ q.id ∉ sent := by
  induction posts generalizing sent with
  | nil => simp [processPosts]
  | cons p ps ih =>
    by_cases h : (!(sent.contains p.id) && filter_post p) = true
    · simp only [processPosts, if_pos h]
      intro q hq
      rcases List.mem_cons.mp hq with hq | hq
      · subst hq
        have hpair : sent.contains q.id = false ∧ filter_post q = true := by
          simpa using h
        refine ⟨hpair.2, fun hmem => ?_⟩
        have hmem' := (contains_eq_true_iff sent q.id).mpr hmem
        rw [hmem'] at hpair
        exact absurd hpair.1 (by simp)
      · have := ih (sent ++ [p.id]) q hq
        exact ⟨this.1, fun hmem => this.2 (List.mem_append_left _ hmem)⟩
    · simp only [processPosts, if_neg h]
      exact ih sent

theorem processPosts_sublist (posts : List Post) (sent : List String) :
    (processPosts posts sent).1.Sublist posts := by
  induction posts generalizing sent with
  | nil => simp [processPosts]
  | cons p ps ih =>
    by_cases h : (!(sent.contains p.id) && filter_post p) = true
    · simp only [processPosts, if_pos h]
      exact List.Sublist.cons₂ p (ih (sent ++ [p.id]))
    · simp only [processPosts, if_neg h]
      exact List.Sublist.cons p (ih sent)

theorem mem_processPosts_sent (posts : List Post) (sent : List String) (x : String)
    (hx : x ∈ sent) : x ∈ (processPosts posts sent).2 := by
  rw [processPosts_sent_eq]
  exact List.mem_append_left _ hx

theorem processPosts_covers (posts : List Post) (sent : List String) :
    ∀ p ∈ posts, p.id ∈ (processPosts posts sent).2 ∨ filter_post p = false := by
  induction posts generalizing sent with
  | nil => simp
  | cons p ps ih =>
    by_cases h : (!(sent.contains p.id) && filter_post p) = true
    · simp only [processPosts, if_pos h]
      intro q hq
      rcases List.mem_cons.mp hq with hq | hq
      · subst hq
        exact Or.inl (mem_processPosts_sent ps (sent ++ [q.id]) q.id
          (List.mem_append_right _ (List.mem_singleton.mpr rfl)))
      · exact ih (sent ++ [p.id]) q hq
    · simp only [processPosts, if_neg h]
      intro q hq
      rcases List.mem_cons.mp hq with hq | hq
      · subst hq
        by_cases hc : sent.contains q.id = true
        · exact Or.inl (mem_processPosts_sent ps sent q.id
            ((contains_eq_true_iff sent q.id).mp hc))
        · have hcf : sent.contains q.id = false := by
            cases hcc : sent.contains q.id
            · rfl
            · exact absurd hcc hc
          cases hf : filter_post q with
          | false => exact Or.inr rfl
          | true =>
            exact absurd
              (show (!(sent.contains q.id) && filter_post q) = true by rw [hcf, hf]; rfl) h
      · exact ih sent q hq

theorem processPosts_nil_of_covered (posts : List Post) (sent : List String)
    (h : ∀ p ∈ posts, p.id ∈ sent ∨ filter_post p = false) :
    processPosts posts sent = ([], sent) := by
  induction posts with
  | nil => simp [processPosts]
  | cons p ps ih =>
    have hcond : (!(sent.contains p.id) && filter_post p) = false := by
      rcases h p (List.mem_cons_self p ps) with hp | hp
      · rw [(contains_eq_true_iff sent p.id).mpr hp]
        rfl
      · rw [hp]
        simp
    have hcond' : ¬((!(sent.contains p.id) && filter_post p) = true) := by
      rw [hcond]
      simp
    simp only [processPosts, if_neg hcond']
    exact ih fun q hq => h q (List.mem_cons_of_mem p hq)

/-- C2: the filter is extensionally the ordered short-circuit conjunction
self-post check, then allow-list, then exclusion, then qualifying list; an
item with no allow-list term in its title is rejected, and an item passing
the allow-list and exclusion checks with no qualifying term is rejected. -/
theorem filter_post_check_order (p : Post) :
    (filter_post p =
      (!(lower p.domain == "self.gamedeals") &&
        hasTerm (lower p.title) allowTerms &&
        !(hasTerm (lower p.title) exclusionTerms) &&
        hasTerm (lower p.title) qualifyingTerms)) ∧
    (hasTerm (lower p.title) allowTerms = false → filter_post p = false) ∧
    (hasTerm (lower p.title) allowTerms = true →
      hasTerm (lower p.title) exclusionTerms = false →
      hasTerm (lower p.title) qualifyingTerms = false →
      filter_post p = false) := by
  unfold filter_post
  by_cases hs : lower p.domain == "self.gamedeals" <;>
    simp [hs] <;>
    by_cases ha : hasTerm (lower p.title) allowTerms <;>
    by_cases he : hasTerm (lower p.title) exclusionTerms <;>
    by_cases hq : hasTerm (lower p.title) qualifyingTerms <;>
    simp [ha, he, hq]

/-- Witness for C2 at concrete posts: a title with no allow-list term, and a
title passing allow and exclusion checks but with no qualifying term. -/
theorem filter_post_check_order_witness :
    filter_post ⟨"x1", "Big Sale at itch.io", "u", "itch.io", "pl"⟩ = false ∧
    filter_post ⟨"x2", "[Steam] Great Game (50 off)", "u", "store.steampowered.com", "pl"⟩ = false :=
  ⟨(filter_post_check_order ⟨"x1", "Big Sale at itch.io", "u", "itch.io", "pl"⟩).2.1 (by decide),
   (filter_post_check_order
      ⟨"x2", "[Steam] Great Game (50 off)", "u", "store.steampowered.com", "pl"⟩).2.2
     (by decide) (by decide) (by decide)⟩

/-- C3: a title containing some allow-list term and some exclusion term is
rejected: exclusion dominates inclusion. -/
theorem filter_post_exclusion_dominates (p : Post)
    (hallow : hasTerm (lower p.title) allowTerms = true)
    (hexcl : hasTerm (lower p.title) exclusionTerms = true) :
    filter_post p = false := by
  unfold filter_post
  by_cases hs : lower p.domain == "self.gamedeals" <;> simp [hs, hallow, hexcl]

/-- Witness for C3: a steam title with time-limited trial language. -/
theorem filter_post_exclusion_dominates_witness :
    filter_post ⟨"x3", "[Steam] Shooter Free Weekend", "u", "store.steampowered.com", "pl"⟩
      = false :=
  filter_post_exclusion_dominates
    ⟨"x3", "[Steam] Shooter Free Weekend", "u", "store.steampowered.com", "pl"⟩
    (by decide) (by decide)

/-- C4: a post whose domain lowercases to the self-post domain of the
monitored subreddit is rejected, whatever its title. -/
theorem filter_post_rejects_self_posts (p : Post)
    (h : lower p.domain = "self.gamedeals") :
    filter_post p = false := by
  unfold filter_post
  simp [h]

/-- Witness for C4: a self post whose title would pass every textual rule. -/
theorem filter_post_rejects_self_posts_witness :
    filter_post ⟨"x4", "[Steam] Game (Free / 100 off)", "u", "SELF.GameDeals", "pl"⟩ = false :=
  filter_post_rejects_self_posts
    ⟨"x4", "[Steam] Game (Free / 100 off)", "u", "SELF.GameDeals", "pl"⟩ (by decide)

/-- C8: saving any non-empty id set and loading it back returns an equal set
(the serialization order is irrelevant and duplicates collapse), and loading
with the backing file absent returns the empty set. -/
theorem seen_set_round_trip (s : List String) (hs : s ≠ []) :
    (∀ x, x ∈ load_sent_posts (save_sent_posts s) ↔ x ∈ s) ∧
    load_sent_posts none = [] := by
  constructor
  · intro x
    simp [load_sent_posts, save_sent_posts, List.mem_dedup]
  · rfl

/-- Witness for C8 at a concrete three-element serialization with a
duplicate. -/
theorem seen_set_round_trip_witness :
    ("b" ∈ load_sent_posts (save_sent_posts ["a", "b", "a"]) ↔
      "b" ∈ (["a", "b", "a"] : List String)) ∧
    load_sent_posts none = [] :=
  ⟨(seen_set_round_trip ["a", "b", "a"] (by simp)).1 "b",
   (seen_set_round_trip ["a", "b", "a"] (by simp)).2⟩

/-- C1: when the SMTP send raises, `save_sent_posts` is never invoked, the
state file keeps its exact pre-run contents, every matched-but-undelivered
id is absent from the persisted set, and a next run over the same feed
computes the same matches again. -/
theorem delivery_failure_preserves_state (env : Env) (file0 : Option (List String))
    (posts : List Post) (hfetch : env.fetchResult = Except.ok posts)
    (hsend : env.sendOk = false) :
    (pyMain env file0).saveCalled = false ∧
    (pyMain env file0).file = file0 ∧
    (∀ p ∈ (processPosts posts (load_sent_posts file0)).1,
      p.id ∉ load_sent_posts (pyMain env file0).file) ∧
    processPosts posts (load_sent_posts (pyMain env file0).file) =
      processPosts posts (load_sent_posts file0) := by
  have hw : (pyMain env file0).file = file0 ∧ (pyMain env file0).saveCalled = false := by
    unfold pyMain
    rw [hfetch]
    by_cases hempty : (processPosts posts (load_sent_posts file0)).1.isEmpty = true
    · simp [hempty]
    · simp [hempty, hsend]
  refine ⟨hw.2, hw.1, ?_, ?_⟩
  · intro p hp
    rw [hw.1]
    exact (processPosts_matched posts (load_sent_posts file0) p hp).2
  · rw [hw.1]

/-- Witness for C1: one matching fetched post, send fails, file stays put. -/
theorem delivery_failure_preserves_state_witness :
    (pyMain ⟨Except.ok [⟨"w1", "[GOG] Indie Gem (Free)", "u", "gog.com", "pl"⟩], false, true⟩
      (some ["z"])).saveCalled = false ∧
    (pyMain ⟨Except.ok [⟨"w1", "[GOG] Indie Gem (Free)", "u", "gog.com", "pl"⟩], false, true⟩
      (some ["z"])).file = some ["z"] :=
  ⟨(delivery_failure_preserves_state _ (some ["z"]) _ rfl rfl).1,
   (delivery_failure_preserves_state _ (some ["z"]) _ rfl rfl).2.1⟩

/-- C5: when the feed fetch raises (e.g., HTTP 503 via raise_for_status),
the run ends with no escaped exception, the state file untouched, no email
handed to the SMTP client, no save call, and the fetch error logged. -/
theorem fetch_failure_terminates_cleanly (e : String) (file0 : Option (List String))
    (sendOk saveOk : Bool) :
    (pyMain ⟨Except.error e, sendOk, saveOk⟩ file0).crashed = false ∧
    (pyMain ⟨Except.error e, sendOk, saveOk⟩ file0).file = file0 ∧
    (pyMain ⟨Except.error e, sendOk, saveOk⟩ file0).sentEmails = [] ∧
    (pyMain ⟨Except.error e, sendOk, saveOk⟩ file0).saveCalled = false ∧
    ("Error fetching " ++ SUBREDDIT ++ ": " ++ e) ∈
      (pyMain ⟨Except.error e, sendOk, saveOk⟩ file0).log := by
  refine ⟨rfl, rfl, rfl, rfl, ?_⟩
  exact List.mem_cons_self _ _

theorem pyMain_no_matches (env : Env) (file1 : Option (List String)) (posts : List Post)
    (hfetch : env.fetchResult = Except.ok posts)
    (hnil : (processPosts posts (load_sent_posts file1)).1 = []) :
    pyMain env file1 =
      { file := file1, sentEmails := [], saveCalled := false, crashed := false,
        log := ["No new matching posts."] } := by
  unfold pyMain
  rw [hfetch]
  simp [hnil]

/-- C6: with feed items A, B, C, seen set containing only A, and only B
matching the rules, the run delivers one document holding B's title, url and
Reddit permalink and neither A's nor C's title, then persists exactly the
set containing A and B, C included nowhere; in general matched items keep
fetch order (a sublist of the fetch), only new matched ids extend the
in-memory set, and every matched item passes the filter and was not seen. -/
theorem scenario_new_match_pipeline :
    ((pyMain envABC (some ["A"])).sentEmails = [render_posts_html [postB]] ∧
     strContains (render_posts_html [postB]) postB.title = true ∧
     strContains (render_posts_html [postB]) ("href=\"" ++ postB.url) = true ∧
     strContains (render_posts_html [postB]) ("http://www.reddit.com" ++ postB.permalink) = true ∧
     load_sent_posts (pyMain envABC (some ["A"])).file = ["A", "B"] ∧
     strContains (render_posts_html [postB]) postA.title = false ∧
     strContains (render_posts_html [postB]) postC.title = false ∧
     "C" ∉ load_sent_posts (pyMain envABC (some ["A"])).file) ∧
    (∀ ps sent, ((processPosts ps sent).1.Sublist ps) ∧
      (processPosts ps sent).2 = sent ++ (processPosts ps sent).1.map Post.id ∧
      ∀ q ∈ (processPosts ps sent).1, filter_post q = true ∧ q.id ∉ sent) := by
  refine ⟨⟨?_, ?_, ?_, ?_, ?_, ?_, ?_, ?_⟩,
    fun ps sent => ⟨processPosts_sublist ps sent, processPosts_sent_eq ps sent,
      processPosts_matched ps sent⟩⟩
  · rfl
  · decide
  · decide
  · decide
  · decide
  · decide
  · decide
  · decide

/-- Witness for C6's quantified part at one concrete matched post. -/
theorem scenario_new_match_pipeline_witness :
    (processPosts [postB] []).2 = [] ++ (processPosts [postB] []).1.map Post.id ∧
    filter_post postB = true :=
  ⟨(scenario_new_match_pipeline.2 [postB] []).2.1,
   ((scenario_new_match_pipeline.2 [postB] []).2.2 postB (by decide)).1⟩

/-- C7 counterexample: after the successful first run of the C6 scenario,
the fetched id C is not in the persisted seen set (it failed the filter and
is never recorded), so it is false that every fetched id is already in the
persisted seen set when the second run starts. -/
theorem second_run_counterexample :
    "C" ∈ [postA, postB, postC].map Post.id ∧
    "C" ∉ load_sent_posts (pyMain envABC (some ["A"])).file := by
  constructor
  · decide
  · decide

/-- C7 as amended: a second run after a successful first run over the same
feed sends no email, never calls save, and leaves the state file unchanged,
because every fetched id is either already in the persisted seen set or
fails the filter, so the new-matches list of the second run is empty. -/
theorem second_run_sends_nothing (env : Env) (file0 : Option (List String))
    (posts : List Post) (hfetch : env.fetchResult = Except.ok posts)
    (hsend : env.sendOk = true) (hsave : env.saveOk = true) :
    (pyMain env (pyMain env file0).file).sentEmails = [] ∧
    (pyMain env (pyMain env file0).file).saveCalled = false ∧
    (pyMain env (pyMain env file0).file).file = (pyMain env file0).file ∧
    (∀ p ∈ posts, p.id ∈ load_sent_posts (pyMain env file0).file ∨ filter_post p = false) ∧
    (processPosts posts (load_sent_posts (pyMain env file0).file)).1 = [] := by
  have hfile : (pyMain env file0).file =
      (if (processPosts posts (load_sent_posts file0)).1.isEmpty = true then file0
        else some (processPosts posts (load_sent_posts file0)).2) := by
    unfold pyMain
    rw [hfetch]
    by_cases hempty : (processPosts posts (load_sent_posts file0)).1.isEmpty = true
    · simp [hempty]
    · simp [hempty, hsend, hsave, save_sent_posts]
  have hcover : ∀ p ∈ posts,
      p.id ∈ load_sent_posts (pyMain env file0).file ∨ filter_post p = false := by
    intro p hp
    rcases processPosts_covers posts (load_sent_posts file0) p hp with hmem | hfail
    · left
      rw [hfile]
      by_cases hempty : (processPosts posts (load_sent_posts file0)).1.isEmpty = true
      · have hnil : (processPosts posts (load_sent_posts file0)).1 = [] :=
          List.isEmpty_iff.mp hempty
        have := processPosts_sent_eq posts (load_sent_posts file0)
        rw [hnil] at this
        simp at this
        rw [if_pos hempty]
        rw [this] at hmem
        exact hmem
      · rw [if_neg hempty]
        simpa [load_sent_posts, List.mem_dedup] using hmem
    · exact Or.inr hfail
  have hnil2 : processPosts posts (load_sent_posts (pyMain env file0).file) =
      ([], load_sent_posts (pyMain env file0).file) :=
    processPosts_nil_of_covered _ _ hcover
  have hrun2 : pyMain env (pyMain env file0).file =
      { file := (pyMain env file0).file, sentEmails := [], saveCalled := false,
        crashed := false, log := ["No new matching posts."] } :=
    pyMain_no_matches env ((pyMain env file0).file) posts hfetch (by rw [hnil2])
  refine ⟨?_, ?_, ?_, hcover, ?_⟩
  · rw [hrun2]
  · rw [hrun2]
  · rw [hrun2]
  · rw [hnil2]

/-- Witness for C7's amended claim at the C6 scenario inputs. -/
theorem second_run_sends_nothing_witness :
    (pyMain envABC (pyMain envABC (some ["A"])).file).sentEmails = [] ∧
    (pyMain envABC (pyMain envABC (some ["A"])).file).saveCalled = false :=
  ⟨(second_run_sends_nothing envABC (some ["A"]) [postA, postB, postC] rfl rfl rfl).1,
   (second_run_sends_nothing envABC (some ["A"]) [postA, postB, postC] rfl rfl rfl).2.1⟩

/-- C9 counterexample: with one matching post, a successful send and a
failing state-file write, the exception escapes `main` (the run crashes) and
nothing is logged, contrary to the claim that a save failure is logged and
does not crash the run. -/
theorem save_failure_crashes_counterexample :
    (pyMain ⟨Except.ok [⟨"w2", "[Steam] Puzzle Pack (Free)", "u", "store.steampowered.com",
        "pl"⟩], true, false⟩ none).crashed = true ∧
    (pyMain ⟨Except.ok [⟨"w2", "[Steam] Puzzle Pack (Free)", "u", "store.steampowered.com",
        "pl"⟩], true, false⟩ none).log = [] := by
  constructor
  · rfl
  · rfl

/-- C9 as amended: when the state-file write raises after a successful
delivery, the exception propagates out of `main` unlogged; the email has
already been handed to the SMTP client and the state file keeps its pre-run
contents. -/
theorem save_failure_propagates_after_delivery (env : Env) (file0 : Option (List String))
    (posts : List Post) (hfetch : env.fetchResult = Except.ok posts)
    (hsend : env.sendOk = true) (hsave : env.saveOk = false)
    (hne : (processPosts posts (load_sent_posts file0)).1 ≠ []) :
    (pyMain env file0).crashed = true ∧
    (pyMain env file0).file = file0 ∧
    (pyMain env file0).sentEmails =
      [render_posts_html (processPosts posts (load_sent_posts file0)).1] ∧
    (pyMain env file0).log = [] := by
  have hempty : (processPosts posts (load_sent_posts file0)).1.isEmpty = false := by
    cases hh : (processPosts posts (load_sent_posts file0)).1 with
    | nil => exact absurd hh hne
    | cons a l => simp [hh]
  unfold pyMain
  rw [hfetch]
  simp [hempty, hsend, hsave]

/-- Witness for C9's amended claim at a concrete matching post. -/
theorem save_failure_propagates_after_delivery_witness :
    (pyMain ⟨Except.ok [⟨"w3", "[Epic] Space Epic (100 off)", "u", "epicgames.com", "pl"⟩],
      true, false⟩ none).crashed = true ∧
    (pyMain ⟨Except.ok [⟨"w3", "[Epic] Space Epic (100 off)", "u", "epicgames.com", "pl"⟩],
      true, false⟩ none).file = none :=
  ⟨(save_failure_propagates_after_delivery _ none _ rfl rfl rfl (by decide)).1,
   (save_failure_propagates_after_delivery _ none _ rfl rfl rfl (by decide)).2.1⟩

theorem infix_extend_right {l : List Char} (x y : String) (h : l <:+: x.data) :
    l <:+: (x ++ y).data := by
  rw [String.data_append]
  exact h.trans ⟨[], y.data, by simp⟩

theorem infix_extend_left {l : List Char} (x y : String) (h : l <:+: y.data) :
    l <:+: (x ++ y).data := by
  rw [String.data_append]
  exact h.trans ⟨x.data, [], by simp⟩

theorem escapeList_append (l₁ l₂ : List Char) :
    escapeList (l₁ ++ l₂) = escapeList l₁ ++ escapeList l₂ := by
  induction l₁ with
  | nil =>
    show escapeList l₂ = "" ++ escapeList l₂
    rw [String.empty_append]
  | cons c cs ih =>
    show escapeChar c ++ escapeList (cs ++ l₂) = (escapeChar c ++ escapeList cs) ++ escapeList l₂
    rw [ih, String.append_assoc]

theorem escapeHtml_append (a b : String) :
    escapeHtml (a ++ b) = escapeHtml a ++ escapeHtml b := by
  unfold escapeHtml
  rw [String.data_append]
  exact escapeList_append a.data b.data

theorem redditHref_infix_card (p : Post) :
    (redditHref p).data <:+: (renderCard p).data := by
  unfold renderCard
  apply infix_extend_right
  apply infix_extend_right
  apply infix_extend_right
  apply infix_extend_left
  exact List.infix_refl _

theorem renderCard_infix_cards (p : Post) (posts : List Post) (hp : p ∈ posts) :
    (renderCard p).data <:+: (renderCards posts).data := by
  induction posts with
  | nil => cases hp
  | cons q ps ih =>
    rcases List.mem_cons.mp hp with h | h
    · subst h
      show (renderCard p).data <:+: (renderCard p ++ renderCards ps).data
      exact infix_extend_right _ _ (List.infix_refl _)
    · show (renderCard p).data <:+: (renderCard q ++ renderCards ps).data
      exact infix_extend_left _ _ (ih h)

/-- C10: every post built by the feed parser already carries an absolute
https permalink (the feed host followed by the raw permalink), while the
layout template itself prepends one more host before the permalink
placeholder, so the Reddit-link href of each such post starts with the
double prefix http://www.reddit.comhttps://www.reddit.com, and that href
occurs verbatim in the rendered document of any matched list containing the
post. -/
theorem reddit_links_double_prefixed (children : List RawChild) (p : Post)
    (hp : p ∈ fetch_posts children) :
    (∃ c ∈ children, p.permalink = "https://www.reddit.com" ++ c.permalink) ∧
    redditHref p = "http://www.reddit.com" ++ escapeHtml p.permalink ∧
    strIsPrefixOf "http://www.reddit.comhttps://www.reddit.com" (redditHref p) = true ∧
    ∀ posts, p ∈ posts →
      strContains (render_posts_html posts) (redditHref p) = true := by
  obtain ⟨c, hc, hpc⟩ := List.mem_map.mp hp
  refine ⟨⟨c, hc, ?_⟩, rfl, ?_, ?_⟩
  · rw [← hpc]
  · rw [strIsPrefixOf_iff]
    have hperm : p.permalink = "https://www.reddit.com" ++ c.permalink := by rw [← hpc]
    have hesc : escapeHtml p.permalink =
        "https://www.reddit.com" ++ escapeHtml c.permalink := by
      rw [hperm, escapeHtml_append]
      have : escapeHtml "https://www.reddit.com" = "https://www.reddit.com" := by decide
      rw [this]
    have hhref : redditHref p =
        "http://www.reddit.comhttps://www.reddit.com" ++ escapeHtml c.permalink := by
      unfold redditHref
      rw [hesc, ← String.append_assoc]
      rfl
    rw [hhref, String.data_append]
    exact List.prefix_append _ _
  · intro posts hmem
    rw [strContains_iff]
    exact (redditHref_infix_card p).trans
      (by
        unfold render_posts_html
        exact infix_extend_right _ _ (infix_extend_left _ _
          (renderCard_infix_cards p posts hmem)))

/-- Witness for C10 at one concrete raw feed child rendered alone. -/
theorem reddit_links_double_prefixed_witness :
    strIsPrefixOf "http://www.reddit.comhttps://www.reddit.com"
      (redditHref ⟨"r1", "t", "u", "d",
        "https://www.reddit.com/r/GameDeals/comments/r1/x"⟩) = true ∧
    strContains
      (render_posts_html [⟨"r1", "t", "u", "d",
        "https://www.reddit.com/r/GameDeals/comments/r1/x"⟩])
      (redditHref ⟨"r1", "t", "u", "d",
        "https://www.reddit.com/r/GameDeals/comments/r1/x"⟩) = true :=
  ⟨(reddit_links_double_prefixed [⟨"r1", "t", "u", "d", "/r/GameDeals/comments/r1/x"⟩] _
      (by decide)).2.2.1,
   (reddit_links_double_prefixed [⟨"r1", "t", "u", "d", "/r/GameDeals/comments/r1/x"⟩] _
      (by decide)).2.2.2 _ (List.mem_singleton.mpr rfl)⟩

end GameDeals
